import Mathlib

/-!
Verification development for the medical-readability-analyzer repository.

Shallow embedding of the core modules (statistics, classifier, scraper,
readability, data validator) as Lean definitions, followed by theorems that
settle the frozen claims about them.  Python floats are modelled as exact
rationals; external library routines (scipy statistical tests, numpy sqrt,
textstat formulas, urllib domain parsing) are modelled as explicit function
parameters, since they are collaborator libraries outside this repository.
-/

namespace MedRead

/-! ## Shared numeric helpers (pandas Series operations on clean data) -/

/-- Arithmetic mean of a list of rationals, as computed by pandas mean /
numpy mean on a series with no missing values. -/
def mean (xs : List ℚ) : ℚ := xs.sum / xs.length

/-- Sample variance with one delta degree of freedom, the pandas Series.var
default used by cohens_d in src/modules/statistics.py. -/
def sampleVar (xs : List ℚ) : ℚ :=
  ((xs.map (fun x => (x - mean xs) ^ 2)).sum) / ((xs.length : ℚ) - 1)

/-! ## config.py constants used by the embedded modules -/

/-- config.SIGNIFICANCE_LEVEL = 0.05 -/
def SIGNIFICANCE_LEVEL : ℚ := 5 / 100

/-- config.CONFIDENCE_THRESHOLD = 3 -/
def CONFIDENCE_THRESHOLD : ℕ := 3

/-- config.MIN_WORD_COUNT = 50 -/
def MIN_WORD_COUNT : ℕ := 50

/-- config.MAX_WORD_COUNT = 50000 -/
def MAX_WORD_COUNT : ℕ := 50000

/-! ## src/modules/statistics.py -/

/-- Result dictionary of test_normality (src/modules/statistics.py lines
105-140).  The note field records the small-sample message; in the exception
branch statistic and p_value are None and is_normal is False. -/
structure NormalityResult where
  statistic : Option ℚ
  p_value : Option ℚ
  is_normal : Bool
  note : Option String
deriving DecidableEq, Repr

/-- test_normality (src/modules/statistics.py lines 105-140).  The
scipy.stats.shapiro call is a collaborator, modelled as the parameter
shapiro; a None result models the call raising an exception. -/
def test_normality (shapiro : List ℚ → Option (ℚ × ℚ)) (data : List ℚ) :
    NormalityResult :=
  if data.length < 3 then
    { statistic := none, p_value := none, is_normal := false,
      note := some "Sample size too small for test" }
  else
    match shapiro data with
    | some (statistic, p_value) =>
      { statistic := some statistic, p_value := some p_value,
        is_normal := decide ((5 : ℚ) / 100 < p_value), note := none }
    | none =>
      { statistic := none, p_value := none, is_normal := false, note := none }

/-- cohens_d (src/modules/statistics.py lines 204-224).  np.sqrt is the
numpy collaborator, modelled as the parameter sqrtFn. -/
def cohens_d (sqrtFn : ℚ → ℚ) (group1 group2 : List ℚ) : ℚ :=
  let n1 : ℚ := group1.length
  let n2 : ℚ := group2.length
  let var1 := sampleVar group1
  let var2 := sampleVar group2
  let pooled_std := sqrtFn (((n1 - 1) * var1 + (n2 - 1) * var2) / (n1 + n2 - 2))
  (mean group1 - mean group2) / pooled_std

/-- rank_biserial (src/modules/statistics.py lines 227-242). -/
def rank_biserial (group1 group2 : List ℚ) (u_statistic : ℚ) : ℚ :=
  let n1 : ℚ := group1.length
  let n2 : ℚ := group2.length
  1 - (2 * u_statistic) / (n1 * n2)

/-- The success dictionary returned by compare_groups
(src/modules/statistics.py lines 189-201). -/
structure ComparisonOk where
  test_used : String
  statistic : ℚ
  p_value : ℚ
  significant : Bool
  effect_size : ℚ
  group1_mean : ℚ
  group2_mean : ℚ
  direction : String
  group1_normal : Bool
  group2_normal : Bool
deriving DecidableEq, Repr

/-- compare_groups (src/modules/statistics.py lines 143-201).  The scipy
tests ttest_ind and mannwhitneyu are collaborators, modelled as the
parameters ttest and mwu returning either (statistic, p_value) or the
message of a raised exception; the except branches of the source return the
error dictionary, modelled as Except.error. -/
def compare_groups (shapiro : List ℚ → Option (ℚ × ℚ))
    (ttest mwu : List ℚ → List ℚ → Except String (ℚ × ℚ))
    (sqrtFn : ℚ → ℚ) (group1 group2 : List ℚ) :
    Except String ComparisonOk :=
  let norm1 := test_normality shapiro group1
  let norm2 := test_normality shapiro group2
  let sel : Except String (String × ℚ × ℚ × ℚ) :=
    if norm1.is_normal && norm2.is_normal then
      match ttest group1 group2 with
      | .ok (statistic, p_value) =>
        .ok ("Independent t-test", statistic, p_value,
             cohens_d sqrtFn group1 group2)
      | .error e => .error e
    else
      match mwu group1 group2 with
      | .ok (statistic, p_value) =>
        .ok ("Mann-Whitney U test", statistic, p_value,
             rank_biserial group1 group2 statistic)
      | .error e => .error e
  match sel with
  | .error e => .error e
  | .ok (test_name, statistic, p_value, effect_size) =>
    let significant := decide (p_value < SIGNIFICANCE_LEVEL)
    let mean1 := mean group1
    let mean2 := mean group2
    let direction :=
      if mean1 < mean2 then "Institutional < Private"
      else "Institutional > Private"
    .ok { test_used := test_name, statistic := statistic, p_value := p_value,
          significant := significant, effect_size := effect_size,
          group1_mean := mean1, group2_mean := mean2, direction := direction,
          group1_normal := norm1.is_normal, group2_normal := norm2.is_normal }

/-- One dataframe row as consumed by the comparison loop of
perform_statistical_analysis: a source_type string and, per metric column,
an optional value (none models NaN, removed by dropna). -/
structure Row where
  source_type : String
  values : String → Option ℚ

/-- The metric list of perform_statistical_analysis
(src/modules/statistics.py line 42). -/
def metricsList : List String := ["GFI", "SMOG", "FKG", "ARI", "mean_readability"]

/-- df[df[source_type] == st][metric].dropna() for a list-of-rows frame. -/
def groupValues (df : List Row) (st metric : String) : List ℚ :=
  (df.filter (fun r => r.source_type == st)).filterMap (fun r => r.values metric)

/-- The group-comparison loop of perform_statistical_analysis
(src/modules/statistics.py lines 67-77): for each metric, when both the
Institutional and the Private group are non-empty after dropna, the
comparisons dictionary gets the compare_groups result keyed by the metric. -/
def perform_comparisons (shapiro : List ℚ → Option (ℚ × ℚ))
    (ttest mwu : List ℚ → List ℚ → Except String (ℚ × ℚ))
    (sqrtFn : ℚ → ℚ) (df : List Row) :
    List (String × Except String ComparisonOk) :=
  metricsList.filterMap (fun metric =>
    if (groupValues df "Institutional" metric).length > 0 ∧
        (groupValues df "Private" metric).length > 0 then
      some (metric,
        compare_groups shapiro ttest mwu sqrtFn
          (groupValues df "Institutional" metric)
          (groupValues df "Private" metric))
    else none)

/-! ## src/modules/classifier.py -/

/-- Whether sub occurs contiguously in a character list. -/
def containsSub (sub : List Char) : List Char → Bool
  | [] => sub.isEmpty
  | c :: t => sub.isPrefixOf (c :: t) || containsSub sub t

/-- Python substring membership (the in operator on str): sub occurs
contiguously in s. -/
def strContains (s sub : String) : Bool := containsSub sub.data s.data

/-- Python str.lower() (the inputs here are ASCII). -/
def pyLower (s : String) : String := String.mk (s.data.map Char.toLower)

/-- Python str.endswith(suf). -/
def pyEndsWith (s suf : String) : Bool := suf.data.isSuffixOf s.data

/-- Python str.strip(): drop leading and trailing whitespace. -/
def pyStrip (s : String) : String :=
  String.mk (((s.data.dropWhile Char.isWhitespace).reverse.dropWhile
    Char.isWhitespace).reverse)

/-- config.INSTITUTIONAL_DOMAINS (src/config.py lines 19-27). -/
def INSTITUTIONAL_DOMAINS : List String :=
  [".gov", ".gov.uk", ".gov.au", ".gov.ca",
   ".edu", ".ac.uk", ".ac.au", ".edu.au",
   ".nhs.uk", ".nhs.net",
   "who.int", "cdc.gov", "nih.gov",
   "mayoclinic.org", "clevelandclinic.org",
   "hopkinsmedicine.org", "webmd.com",
   "healthline.com", "medlineplus.gov"]

/-- config.INSTITUTIONAL_PATTERNS (src/config.py lines 29-33). -/
def INSTITUTIONAL_PATTERNS : List String :=
  ["/government/", "/health/official/",
   "/public-health/", "/medical-center/",
   "university", "college", "hospital"]

/-- config.INSTITUTIONAL_KEYWORDS (src/config.py lines 35-40). -/
def INSTITUTIONAL_KEYWORDS : List String :=
  ["National Institutes", "Centers for Disease",
   "National Health Service", "Mayo Clinic",
   "Cleveland Clinic", "Johns Hopkins",
   "CDC", "NIH", "NHS", "WHO"]

/-- Level 1 of classify_source (src/modules/classifier.py lines 46-50): the
loop breaks at the first institutional domain that is a suffix of, or occurs
in, the lowered domain, adding 3 exactly once; List.any is that loop. -/
def domainTierMatch (domain_lower : String) : Bool :=
  INSTITUTIONAL_DOMAINS.any (fun d =>
    pyEndsWith domain_lower d || strContains domain_lower d)

/-- Level 2 of classify_source (src/modules/classifier.py lines 53-57):
first URL pattern occurring in the lowered URL, adding 2 exactly once. -/
def urlTierMatch (url_lower : String) : Bool :=
  INSTITUTIONAL_PATTERNS.any (fun p => strContains url_lower (pyLower p))

/-- Level 3 of classify_source (src/modules/classifier.py lines 60-65):
only when the title is non-empty, first institutional keyword occurring in
the lowered title, adding 1 exactly once. -/
def titleTierMatch (title_lower : String) : Bool :=
  (title_lower != "") &&
    INSTITUTIONAL_KEYWORDS.any (fun k => strContains title_lower (pyLower k))

/-- classify_source (src/modules/classifier.py lines 21-75).  The
urlparse-based extract_domain_from_url helper is modelled as the parameter
extractDomain (urllib is a stdlib collaborator); it is consulted only when
the domain argument is empty.  The three break-at-first-match accumulation
loops are denoted by the three tier functions, each contributing its weight
at most once. -/
def classify_source (extractDomain : String → String)
    (url page_title domain : String) : String × ℕ :=
  let domain := if domain = "" then extractDomain url else domain
  let url_lower := pyLower url
  let domain_lower := pyLower domain
  let title_lower := pyLower page_title
  let confidence :=
    (if domainTierMatch domain_lower then 3 else 0) +
    (if urlTierMatch url_lower then 2 else 0) +
    (if titleTierMatch title_lower then 1 else 0)
  let classification :=
    if confidence ≥ CONFIDENCE_THRESHOLD then "Institutional" else "Private"
  (classification, confidence)

/-- One element of the urls_data list consumed by
get_ambiguous_classifications, with the keys the function reads.  The
domain is taken as present (the source falls back to re-extracting it from
the URL only for display purposes). -/
structure ClassifiedRecord where
  url : String
  domain : String
  source_type : String
  classification_confidence : ℕ
deriving DecidableEq, Repr

/-- One entry of the list built by get_ambiguous_classifications. -/
structure AmbiguousEntry where
  url : String
  domain : String
  classification : String
  confidence : ℕ
deriving DecidableEq, Repr

/-- get_ambiguous_classifications (src/modules/classifier.py lines 124-147),
default threshold 2: keeps records with confidence <= threshold and
confidence > 0. -/
def get_ambiguous_classifications (urls_data : List ClassifiedRecord)
    (threshold : ℕ) : List AmbiguousEntry :=
  urls_data.filterMap (fun data =>
    if data.classification_confidence ≤ threshold ∧
        0 < data.classification_confidence then
      some { url := data.url, domain := data.domain,
             classification := data.source_type,
             confidence := data.classification_confidence }
    else none)

/-! ## src/modules/scraper.py : cleaning-independent validation -/

/-- Helper for pySplit: accumulate the current word (reversed) while
walking the character list. -/
def wordsAux (cur : List Char) : List Char → List String
  | [] => if cur.isEmpty then [] else [String.mk cur.reverse]
  | c :: t =>
    if c.isWhitespace then
      (if cur.isEmpty then wordsAux [] t
       else String.mk cur.reverse :: wordsAux [] t)
    else wordsAux (c :: cur) t

/-- Python str.split() with no separator: split on whitespace runs and
drop empty pieces. -/
def pySplit (s : String) : List String := wordsAux [] s.data

/-- validate_content (src/modules/scraper.py lines 196-241).  The sentence
and boilerplate checks of lines 226-238 only log warnings and never change
the returned value, so they do not appear in the embedded function. -/
def validate_content (text : String) : Bool × List String :=
  if text = "" then (false, ["Empty text"])
  else
    let words := pySplit text
    let word_count := words.length
    if word_count < MIN_WORD_COUNT then
      (false, ["Text too short (" ++ toString word_count ++ " words)"])
    else if word_count > MAX_WORD_COUNT then
      (false, ["Text too long (" ++ toString word_count ++ " words - likely error)"])
    else (true, [])

/-- The result dictionary of scrape_webpage with the fields set by the
validation tail. -/
structure ScrapeRecord where
  url : String
  content : Option String
  word_count : ℕ
  status : String
  error_msg : Option String
deriving DecidableEq, Repr

/-- The content-validation tail of scrape_webpage (src/modules/scraper.py
lines 66-79): after cleaning, an invalid text sets status insufficient_text
while still exposing the text, otherwise the record keeps the initial
success status. -/
def scrape_validate_content (url cleaned_content : String) : ScrapeRecord :=
  let vr := validate_content cleaned_content
  if vr.1 = false then
    { url := url, content := some cleaned_content,
      word_count := (pySplit cleaned_content).length,
      status := "insufficient_text",
      error_msg := some (String.intercalate "; " vr.2) }
  else
    { url := url, content := some cleaned_content,
      word_count := (pySplit cleaned_content).length,
      status := "success", error_msg := none }

/-! ## src/modules/readability.py -/

/-- The textstat collaborator library (src/modules/readability.py lines
49-55): the four grade-level formulas may yield NaN, modelled as none. -/
structure TextstatLib where
  gunning_fog : String → Option ℚ
  smog_index : String → Option ℚ
  flesch_kincaid_grade : String → Option ℚ
  automated_readability_index : String → Option ℚ
  sentence_count : String → ℕ
  syllable_count : String → ℕ

/-- The metrics dictionary returned by calculate_readability. -/
structure ReadabilityMetrics where
  GFI : Option ℚ
  SMOG : Option ℚ
  FKG : Option ℚ
  ARI : Option ℚ
  word_count : ℕ
  sentence_count : ℕ
  syllable_count : ℕ
  mean_readability : Option ℚ
deriving DecidableEq, Repr

/-- The score-validation loop of calculate_readability
(src/modules/readability.py lines 59-63): NaN or out-of-range scores are
replaced by None. -/
def validateScore (v : Option ℚ) : Option ℚ :=
  match v with
  | none => none
  | some x => if x < 0 ∨ x > 30 then none else some x

/-- calculate_readability (src/modules/readability.py lines 24-80).  Empty
or too-short text returns None.  When every validated score is None, line 72
stores None as mean_readability, and the log statement on line 74 then
formats that None with the .1f format specifier, which raises TypeError;
the except handler on lines 78-80 turns this into a None return for the
whole call, so no metrics dictionary is produced in that case. -/
def calculate_readability (lib : TextstatLib) (text : String) :
    Option ReadabilityMetrics :=
  if text = "" then none
  else
    let words := pySplit text
    let word_count := words.length
    if word_count < MIN_WORD_COUNT then none
    else
      let gfi := validateScore (lib.gunning_fog text)
      let smog := validateScore (lib.smog_index text)
      let fkg := validateScore (lib.flesch_kincaid_grade text)
      let ari := validateScore (lib.automated_readability_index text)
      let valid_scores := [gfi, smog, fkg, ari].filterMap id
      if valid_scores = [] then none
      else
        some { GFI := gfi, SMOG := smog, FKG := fkg, ARI := ari,
               word_count := word_count,
               sentence_count := lib.sentence_count text,
               syllable_count := lib.syllable_count text,
               mean_readability := some (mean valid_scores) }

/-! ## src/modules/data_validator.py -/

/-- One row of the uploaded Readability_Data table, restricted to the score
columns prepare_dataframe_for_analysis operates on; none models NaN.  The
mean_readability field is meaningful only when the surrounding frame has
the column. -/
structure ScoreRow where
  GFI : Option ℚ
  SMOG : Option ℚ
  FKG : Option ℚ
  ARI : Option ℚ
  mean_readability : Option ℚ
deriving DecidableEq, Repr

/-- The uploaded table: its rows plus whether a mean_readability column is
present. -/
structure ScoreFrame where
  rows : List ScoreRow
  hasMeanCol : Bool
deriving DecidableEq, Repr

/-- df[score_columns].mean(axis=1, skipna=True) on one row: mean of the
non-NaN component scores, NaN (none) when all four are missing. -/
def rowMeanSkipna (r : ScoreRow) : Option ℚ :=
  let vals := [r.GFI, r.SMOG, r.FKG, r.ARI].filterMap id
  if vals = [] then none else some (mean vals)

/-- prepare_dataframe_for_analysis (src/modules/data_validator.py lines
161-195): mean_readability is calculated from the component scores only
when the column is not present; the pd.to_numeric and astype coercions on
lines 183-193 are identity on the already well-typed values modelled
here. -/
def prepare_dataframe_for_analysis (df : ScoreFrame) : ScoreFrame :=
  if df.hasMeanCol then df
  else
    { rows := df.rows.map (fun r => { r with mean_readability := rowMeanSkipna r }),
      hasMeanCol := true }

/-! ## src/modules/scraper.py : extract_main_content over a parsed tree

The BeautifulSoup document is modelled as a list of HTML nodes (the
children of the document root).  Only the attributes the extractor queries
are kept: tag name, the raw class attribute string and the id attribute.
bs4 regex attribute matching with re.compile(indicator, re.I) is
case-insensitive substring search, since every content indicator is a plain
word. -/

/-- A parsed HTML node. -/
inductive HNode where
  | elem (tag : String) (className idAttr : Option String) (children : List HNode)
  | text (s : String)
deriving Repr

/-- The element list decomposed up front by extract_main_content
(src/modules/scraper.py lines 106-108). -/
def unwantedTags : List String :=
  ["script", "style", "nav", "header", "footer", "aside", "iframe", "noscript"]

mutual

/-- soup([...unwanted...]) decompose on one node: drop the whole subtree of
an unwanted element, keep everything else with its children stripped. -/
def stripNode : HNode → Option HNode
  | .text s => some (.text s)
  | .elem t c i ch =>
    if unwantedTags.contains t then none
    else some (.elem t c i (stripList ch))

/-- decompose over a node list. -/
def stripList : List HNode → List HNode
  | [] => []
  | n :: rest =>
    match stripNode n with
    | some m => m :: stripList rest
    | none => stripList rest

end

mutual

/-- Text fragments of a subtree in document order. -/
def textFragsNode : HNode → List String
  | .text s => [s]
  | .elem _ _ _ ch => textFragsList ch

/-- Text fragments of a node list in document order. -/
def textFragsList : List HNode → List String
  | [] => []
  | n :: rest => textFragsNode n ++ textFragsList rest

end

/-- Tag.get_text(separator, strip=True): strip each text fragment, drop the
ones that become empty, join with the separator. -/
def get_text_with (sep : String) (n : HNode) : String :=
  String.intercalate sep
    (((textFragsNode n).map pyStrip).filter (fun s => s != ""))

/-- get_text(separator=" ", strip=True), used by strategies 1, 2, 3, 5. -/
def get_text_sep (n : HNode) : String := get_text_with " " n

/-- get_text(strip=True) with the default empty separator, used on each
paragraph by strategy 4. -/
def get_text_strip (n : HNode) : String := get_text_with "" n

mutual

/-- soup.find(tag): first element with the tag in document preorder. -/
def findTagNode (tag : String) : HNode → Option HNode
  | .text _ => none
  | .elem t c i ch =>
    if t = tag then some (.elem t c i ch) else findTagList tag ch

/-- find over a node list. -/
def findTagList (tag : String) : List HNode → Option HNode
  | [] => none
  | n :: rest =>
    match findTagNode tag n with
    | some m => some m
    | none => findTagList tag rest

end

/-- Whether an attribute value matches re.compile(indicator, re.I) under
re.search: the attribute is present and contains the indicator
case-insensitively. -/
def attrMatches (attr : Option String) (indicator : String) : Bool :=
  match attr with
  | none => false
  | some a => strContains (pyLower a) (pyLower indicator)

mutual

/-- soup.find_all(class_=re.compile(indicator, re.I)): every element whose
class attribute matches, in document preorder. -/
def findAllClassNode (indicator : String) : HNode → List HNode
  | .text _ => []
  | .elem t c i ch =>
    (if attrMatches c indicator then [HNode.elem t c i ch] else []) ++
      findAllClassList indicator ch

/-- find_all by class over a node list. -/
def findAllClassList (indicator : String) : List HNode → List HNode
  | [] => []
  | n :: rest => findAllClassNode indicator n ++ findAllClassList indicator rest

end

mutual

/-- soup.find(id=re.compile(indicator, re.I)): first element whose id
attribute matches, in document preorder. -/
def findIdNode (indicator : String) : HNode → Option HNode
  | .text _ => none
  | .elem t c i ch =>
    if attrMatches i indicator then some (.elem t c i ch)
    else findIdList indicator ch

/-- find by id over a node list. -/
def findIdList (indicator : String) : List HNode → Option HNode
  | [] => none
  | n :: rest =>
    match findIdNode indicator n with
    | some m => some m
    | none => findIdList indicator rest

end

mutual

/-- body.find_all(tag): every element with the tag, in document preorder. -/
def findAllTagNode (tag : String) : HNode → List HNode
  | .text _ => []
  | .elem t c i ch =>
    (if t = tag then [HNode.elem t c i ch] else []) ++ findAllTagList tag ch

/-- find_all by tag over a node list. -/
def findAllTagList (tag : String) : List HNode → List HNode
  | [] => []
  | n :: rest => findAllTagNode tag n ++ findAllTagList tag rest

end

/-- The content_indicators list (src/modules/scraper.py lines 125-128). -/
def content_indicators : List String :=
  ["content", "article", "post", "entry", "text",
   "main", "body", "story", "page-content"]

/-- The acceptance test applied to each candidate text: its word count
strictly exceeds MIN_WORD_COUNT (src/modules/scraper.py lines 114, 121,
135, 142, 151). -/
def acceptText (t : String) : Bool := decide (MIN_WORD_COUNT < (pySplit t).length)

/-- Strategy 1 (src/modules/scraper.py lines 110-115): the article tag, if
present and its text passes. -/
def strategyArticle (soup : List HNode) : Option String :=
  match findTagList "article" soup with
  | none => none
  | some article =>
    let text := get_text_sep article
    if acceptText text then some text else none

/-- Strategy 2 (src/modules/scraper.py lines 117-122): the main tag, if
present and its text passes. -/
def strategyMain (soup : List HNode) : Option String :=
  match findTagList "main" soup with
  | none => none
  | some m =>
    let text := get_text_sep m
    if acceptText text then some text else none

/-- Strategy 3 (src/modules/scraper.py lines 124-143): for each content
indicator in order, first the class matches in document order, then the id
match; the first candidate whose text passes is returned. -/
def strategyIndicators (soup : List HNode) : Option String :=
  content_indicators.findSome? (fun indicator =>
    match ((findAllClassList indicator soup).map get_text_sep).find? acceptText with
    | some text => some text
    | none =>
      match findIdList indicator soup with
      | some el =>
        let text := get_text_sep el
        if acceptText text then some text else none
      | none => none)

/-- Strategy 4 (src/modules/scraper.py lines 145-152): join the stripped
text of all paragraphs under body with single spaces, if body exists, has
paragraphs, and the joined text passes. -/
def strategyParagraphs (soup : List HNode) : Option String :=
  match findTagList "body" soup with
  | none => none
  | some (.text _) => none
  | some (.elem _ _ _ ch) =>
    let paragraphs := findAllTagList "p" ch
    if paragraphs.isEmpty then none
    else
      let text := String.intercalate " " (paragraphs.map get_text_strip)
      if acceptText text then some text else none

/-- Strategy 5 (src/modules/scraper.py lines 154-157): all text under body,
regardless of length; None when it is empty or there is no body. -/
def strategyBodyAll (soup : List HNode) : Option String :=
  match findTagList "body" soup with
  | none => none
  | some body =>
    let text := get_text_sep body
    if text = "" then none else some text

/-- extract_main_content (src/modules/scraper.py lines 95-159): strip the
unwanted elements once up front, then return at the first strategy that
yields a result, in the source order. -/
def extract_main_content (soup0 : List HNode) : Option String :=
  let soup := stripList soup0
  match strategyArticle soup with
  | some t => some t
  | none =>
    match strategyMain soup with
    | some t => some t
    | none =>
      match strategyIndicators soup with
      | some t => some t
      | none =>
        match strategyParagraphs soup with
        | some t => some t
        | none => strategyBodyAll soup

/-! ## Concrete collaborator instances used by witnesses -/

/-- A Shapiro-Wilk stub that always reports p = 1/2 (normal). -/
def wShapiroNormal : List ℚ → Option (ℚ × ℚ) := fun _ => some (9 / 10, 1 / 2)

/-- A Shapiro-Wilk stub that always raises (models a scipy exception). -/
def wShapiroFail : List ℚ → Option (ℚ × ℚ) := fun _ => none

/-- A t-test stub returning statistic 2 and p = 1/100. -/
def wTtest : List ℚ → List ℚ → Except String (ℚ × ℚ) := fun _ _ => .ok (2, 1 / 100)

/-- A Mann-Whitney stub returning U = 3 and p = 1/25. -/
def wMwu : List ℚ → List ℚ → Except String (ℚ × ℚ) := fun _ _ => .ok (3, 1 / 25)

/-- The identity used where a numeric square root collaborator is needed. -/
def idQ : ℚ → ℚ := fun q => q

/-- A 49-word text. -/
def wText49 : String := String.intercalate " " (List.replicate 49 "a")

/-- A 50-word text. -/
def wText50 : String := String.intercalate " " (List.replicate 50 "a")

/-- A 51-word text. -/
def wText51 : String := String.intercalate " " (List.replicate 51 "a")

/-- A textstat stub whose four formulas always return 35, outside the sane
range 0-30. -/
def wLib35 : TextstatLib :=
  { gunning_fog := fun _ => some 35, smog_index := fun _ => some 35,
    flesch_kincaid_grade := fun _ => some 35,
    automated_readability_index := fun _ => some 35,
    sentence_count := fun _ => 1, syllable_count := fun _ => 50 }

/-- A Mann-Whitney stub that raises exactly on the group [1, 1, 1],
modelling a test throwing on degenerate input. -/
def wMwuErr : List ℚ → List ℚ → Except String (ℚ × ℚ) :=
  fun g1 _ => if g1 = [1, 1, 1] then .error "degenerate input" else .ok (3, 1 / 25)

/-- Metric values of the Institutional witness rows: GFI is the degenerate
constant 1, every other metric is 5. -/
def wValuesInst : String → Option ℚ :=
  fun metric => if metric == "GFI" then some 1 else some 5

/-- Metric values of the Private witness rows: GFI is 2, every other
metric is 7. -/
def wValuesPriv : String → Option ℚ :=
  fun metric => if metric == "GFI" then some 2 else some 7

/-- A six-row witness frame, three rows per source type. -/
def wDf : List Row :=
  [⟨"Institutional", wValuesInst⟩, ⟨"Institutional", wValuesInst⟩,
   ⟨"Institutional", wValuesInst⟩, ⟨"Private", wValuesPriv⟩,
   ⟨"Private", wValuesPriv⟩, ⟨"Private", wValuesPriv⟩]

/-- The article element of the witness document, with a 51-word text. -/
def wArticle : HNode := HNode.elem "article" none none [HNode.text wText51]

/-- A witness document: a body holding the 51-word article and a short
main element that a later strategy would pick up. -/
def wSoup : List HNode :=
  [HNode.elem "html" none none
    [HNode.elem "body" none none
      [wArticle, HNode.elem "main" none none [HNode.text "short main text"]]]]

/-! ## Theorems -/

/-- C2: for every group of observations, the normality verdict comes from
the Shapiro-Wilk collaborator and the group is judged normal iff the
returned p-value is strictly greater than 0.05; with fewer than 3
observations the test is not run (the result carries no statistic and no
p-value, independently of the shapiro function) and the verdict is
non-normal with the insufficient-sample note. -/
theorem test_normality_spec (shapiro : List ℚ → Option (ℚ × ℚ))
    (data : List ℚ) :
    (data.length < 3 →
      test_normality shapiro data =
        { statistic := none, p_value := none, is_normal := false,
          note := some "Sample size too small for test" }) ∧
    (3 ≤ data.length → ∀ s p, shapiro data = some (s, p) →
      ((test_normality shapiro data).is_normal = true ↔ (5 : ℚ) / 100 < p) ∧
      (test_normality shapiro data).p_value = some p ∧
      (test_normality shapiro data).statistic = some s) := by
  refine ⟨fun h => ?_, fun h s p hsp => ?_⟩
  · simp [test_normality, h]
  · have h3 : ¬ data.length < 3 := by omega
    simp [test_normality, h3, hsp]

/-- Witness for test_normality_spec: a two-element group is judged
non-normal without consulting the test, and a three-element group with
Shapiro p-value 1/2 is judged normal. -/
theorem test_normality_spec_witness :
    test_normality (fun _ => some (9 / 10, 1 / 2)) [1, 2] =
      { statistic := none, p_value := none, is_normal := false,
        note := some "Sample size too small for test" } ∧
    ((test_normality (fun _ => some (9 / 10, 1 / 2)) [1, 2, 3]).is_normal = true ↔
      (5 : ℚ) / 100 < 1 / 2) :=
  ⟨(test_normality_spec _ [1, 2]).1 (by norm_num),
   ((test_normality_spec _ [1, 2, 3]).2 (by norm_num) (9 / 10) (1 / 2) rfl).1⟩

/-- C1: for a comparison over two non-empty groups, if both groups pass the
normality check the report uses the independent t-test with the Cohens-d value
computed as (mean1 - mean2) divided by the square root of the
(n-1)-weighted pooled variance; if either group fails the check it uses the
two-sided Mann-Whitney U test with rank-biserial correlation
1 - 2U/(n1*n2) as effect size. -/
theorem compare_groups_test_selection
    (shapiro : List ℚ → Option (ℚ × ℚ))
    (ttest mwu : List ℚ → List ℚ → Except String (ℚ × ℚ))
    (sqrtFn : ℚ → ℚ) (group1 group2 : List ℚ)
    (_hne1 : group1 ≠ []) (_hne2 : group2 ≠ []) :
    ((test_normality shapiro group1).is_normal = true →
      (test_normality shapiro group2).is_normal = true →
      ∀ s p, ttest group1 group2 = .ok (s, p) →
      ∃ r, compare_groups shapiro ttest mwu sqrtFn group1 group2 = .ok r ∧
        r.test_used = "Independent t-test" ∧
        r.effect_size = (mean group1 - mean group2) /
          sqrtFn ((((group1.length : ℚ) - 1) * sampleVar group1 +
                   ((group2.length : ℚ) - 1) * sampleVar group2) /
                  ((group1.length : ℚ) + (group2.length : ℚ) - 2))) ∧
    (((test_normality shapiro group1).is_normal = false ∨
      (test_normality shapiro group2).is_normal = false) →
      ∀ u p, mwu group1 group2 = .ok (u, p) →
      ∃ r, compare_groups shapiro ttest mwu sqrtFn group1 group2 = .ok r ∧
        r.test_used = "Mann-Whitney U test" ∧
        r.effect_size =
          1 - (2 * u) / ((group1.length : ℚ) * (group2.length : ℚ))) := by
  constructor
  · intro h1 h2 s p hts
    simp only [compare_groups, h1, h2, Bool.and_self, if_true, hts]
    refine ⟨_, rfl, rfl, ?_⟩
    simp only [cohens_d]
  · intro hfail u p hmwu
    have hcond : ((test_normality shapiro group1).is_normal &&
        (test_normality shapiro group2).is_normal) = false := by
      rcases hfail with h | h <;> simp [h]
    simp only [compare_groups, hcond, Bool.false_eq_true, if_false, hmwu]
    refine ⟨_, rfl, rfl, ?_⟩
    simp only [rank_biserial]

/-- Witness for compare_groups_test_selection: with an always-normal
Shapiro stub the t-test branch is reported, and with an always-failing
Shapiro stub the Mann-Whitney branch is reported. -/
theorem compare_groups_test_selection_witness :
    (∃ r, compare_groups wShapiroNormal wTtest wMwu idQ [1, 2, 3] [2, 4, 6] = .ok r ∧
      r.test_used = "Independent t-test" ∧
      r.effect_size = (mean [1, 2, 3] - mean [2, 4, 6]) /
        idQ ((((([1, 2, 3] : List ℚ).length : ℚ) - 1) * sampleVar [1, 2, 3] +
              ((([2, 4, 6] : List ℚ).length : ℚ) - 1) * sampleVar [2, 4, 6]) /
             ((([1, 2, 3] : List ℚ).length : ℚ) + (([2, 4, 6] : List ℚ).length : ℚ) - 2))) ∧
    (∃ r, compare_groups wShapiroFail wTtest wMwu idQ [1, 2, 3] [2, 4, 6] = .ok r ∧
      r.test_used = "Mann-Whitney U test" ∧
      r.effect_size =
        1 - (2 * 3) / ((([1, 2, 3] : List ℚ).length : ℚ) * (([2, 4, 6] : List ℚ).length : ℚ))) := by
  have hn1 : (test_normality wShapiroNormal [1, 2, 3]).is_normal = true := by
    simp only [test_normality, wShapiroNormal]
    norm_num
  have hn2 : (test_normality wShapiroNormal [2, 4, 6]).is_normal = true := by
    simp only [test_normality, wShapiroNormal]
    norm_num
  have hf1 : (test_normality wShapiroFail [1, 2, 3]).is_normal = false := rfl
  constructor
  · exact (compare_groups_test_selection wShapiroNormal wTtest wMwu idQ
      [1, 2, 3] [2, 4, 6] (by simp) (by simp)).1 hn1 hn2 2 (1 / 100) rfl
  · exact (compare_groups_test_selection wShapiroFail wTtest wMwu idQ
      [1, 2, 3] [2, 4, 6] (by simp) (by simp)).2 (Or.inl hf1) 3 (1 / 25) rfl

/-- C10: for every successful two-group comparison in which the two group
means are exactly equal, the reported direction label is
"Institutional > Private" (the strict less-than comparison maps the tie to
the greater-than label). -/
theorem compare_groups_direction_on_tie
    (shapiro : List ℚ → Option (ℚ × ℚ))
    (ttest mwu : List ℚ → List ℚ → Except String (ℚ × ℚ))
    (sqrtFn : ℚ → ℚ) (group1 group2 : List ℚ) (r : ComparisonOk)
    (hok : compare_groups shapiro ttest mwu sqrtFn group1 group2 = .ok r)
    (heq : mean group1 = mean group2) :
    r.direction = "Institutional > Private" := by
  simp only [compare_groups] at hok
  split at hok
  · simp at hok
  · simp only [Except.ok.injEq] at hok
    subst hok
    dsimp only
    rw [heq, if_neg (lt_irrefl (mean group2))]

/-- Witness for compare_groups_direction_on_tie: two groups with equal
mean 2 get the greater-than label. -/
theorem compare_groups_direction_on_tie_witness :
    ∃ r, compare_groups wShapiroNormal wTtest wMwu idQ [1, 2, 3] [2, 2, 2] = .ok r ∧
      r.direction = "Institutional > Private" := by
  have hn1 : (test_normality wShapiroNormal [1, 2, 3]).is_normal = true := by
    simp only [test_normality, wShapiroNormal]
    norm_num
  have hn2 : (test_normality wShapiroNormal [2, 2, 2]).is_normal = true := by
    simp only [test_normality, wShapiroNormal]
    norm_num
  have hok : ∃ r, compare_groups wShapiroNormal wTtest wMwu idQ [1, 2, 3] [2, 2, 2] = .ok r := by
    simp only [compare_groups, hn1, hn2, Bool.and_self, if_true, wTtest]
    exact ⟨_, rfl⟩
  obtain ⟨r, hr⟩ := hok
  exact ⟨r, hr, compare_groups_direction_on_tie wShapiroNormal wTtest wMwu idQ
    [1, 2, 3] [2, 2, 2] r hr (by norm_num [mean])⟩

/-- C5: a cleaned text with exactly MIN_WORD_COUNT - 1 words fails content
validation and the scrape record gets status insufficient_text; a cleaned
text with exactly MIN_WORD_COUNT words (which is at most MAX_WORD_COUNT)
passes validation and the record keeps status success. -/
theorem min_word_count_boundary (url text : String) :
    ((pySplit text).length = MIN_WORD_COUNT - 1 →
      (validate_content text).1 = false ∧
      (scrape_validate_content url text).status = "insufficient_text") ∧
    ((pySplit text).length = MIN_WORD_COUNT →
      validate_content text = (true, []) ∧
      (scrape_validate_content url text).status = "success") := by
  constructor
  · intro h
    have hne : ¬ text = "" := by
      intro he
      subst he
      simp [pySplit, wordsAux, MIN_WORD_COUNT] at h
    have hval : (validate_content text).1 = false := by
      simp only [validate_content, hne, if_false, h, MIN_WORD_COUNT]
      norm_num
    refine ⟨hval, ?_⟩
    simp [scrape_validate_content, hval]
  · intro h
    have hne : ¬ text = "" := by
      intro he
      subst he
      simp [pySplit, wordsAux, MIN_WORD_COUNT] at h
    have hval : validate_content text = (true, []) := by
      simp only [validate_content, hne, if_false, h, MIN_WORD_COUNT, MAX_WORD_COUNT]
      norm_num
    refine ⟨hval, ?_⟩
    simp [scrape_validate_content, hval]

set_option maxRecDepth 8000 in
/-- Witness for min_word_count_boundary at the 49- and 50-word texts. -/
theorem min_word_count_boundary_witness :
    ((validate_content wText49).1 = false ∧
      (scrape_validate_content "https://example.com" wText49).status = "insufficient_text") ∧
    (validate_content wText50 = (true, []) ∧
      (scrape_validate_content "https://example.com" wText50).status = "success") :=
  ⟨(min_word_count_boundary "https://example.com" wText49).1 (by decide),
   (min_word_count_boundary "https://example.com" wText50).2 (by decide)⟩

/-- C8 counterexample: when the uploaded table already has a
mean_readability column, preparation leaves a row whose stored
mean_readability is 99 untouched although its four component scores are
all 10, whose mean is 10 - so after preparation that stored mean_readability
differs from the mean of its current component scores. -/
theorem prepare_keeps_stale_mean :
    (prepare_dataframe_for_analysis
        ⟨[⟨some 10, some 10, some 10, some 10, some 99⟩], true⟩).rows =
      [⟨some 10, some 10, some 10, some 10, some 99⟩] ∧
    rowMeanSkipna ⟨some 10, some 10, some 10, some 10, some 99⟩ = some 10 ∧
    some (99 : ℚ) ≠ some (10 : ℚ) := by
  refine ⟨rfl, ?_, by norm_num⟩
  have hv : rowMeanSkipna ⟨some 10, some 10, some 10, some 10, some 99⟩ =
      some (mean [10, 10, 10, 10]) := rfl
  rw [hv]
  norm_num [mean]

/-- C8 (amended): prepare_dataframe_for_analysis computes mean_readability
from the component scores only when the mean_readability column is absent
from the uploaded table; when the column is present the frame is returned
unchanged, so an uploaded mean_readability value is kept even if the
component scores were edited. -/
theorem prepare_mean_only_when_column_missing (df : ScoreFrame) :
    (df.hasMeanCol = false →
      prepare_dataframe_for_analysis df =
        { rows := df.rows.map (fun r => { r with mean_readability := rowMeanSkipna r }),
          hasMeanCol := true }) ∧
    (df.hasMeanCol = true → prepare_dataframe_for_analysis df = df) := by
  constructor <;> intro h <;> simp [prepare_dataframe_for_analysis, h]

/-- Witness for prepare_mean_only_when_column_missing on a one-row frame
without the column and on a frame with the column. -/
theorem prepare_mean_only_when_column_missing_witness :
    prepare_dataframe_for_analysis ⟨[⟨some 4, some 6, none, none, none⟩], false⟩ =
      { rows := [⟨some 4, some 6, none, none,
          rowMeanSkipna ⟨some 4, some 6, none, none, none⟩⟩], hasMeanCol := true } ∧
    prepare_dataframe_for_analysis ⟨[⟨some 4, some 6, none, none, some 5⟩], true⟩ =
      ⟨[⟨some 4, some 6, none, none, some 5⟩], true⟩ := by
  constructor
  · have h := (prepare_mean_only_when_column_missing
      ⟨[⟨some 4, some 6, none, none, none⟩], false⟩).1 rfl
    simpa using h
  · exact (prepare_mean_only_when_column_missing
      ⟨[⟨some 4, some 6, none, none, some 5⟩], true⟩).2 rfl

/-- C4 (code behaviour at the boundary): with its default threshold 2,
get_ambiguous_classifications also flags a record whose recorded
confidence is 2, not only confidence 1; confidence 0 and confidence 3 are
not flagged.  The claim (and the docstring of the function, which says
classifications below the threshold are ambiguous) announce flagging
exactly at confidence 1. -/
theorem get_ambiguous_flags_confidence_two :
    get_ambiguous_classifications [⟨"https://x.com/a", "x.com", "Private", 2⟩] 2 =
      [⟨"https://x.com/a", "x.com", "Private", 2⟩] ∧
    get_ambiguous_classifications [⟨"https://x.com/a", "x.com", "Private", 1⟩] 2 =
      [⟨"https://x.com/a", "x.com", "Private", 1⟩] ∧
    get_ambiguous_classifications [⟨"https://x.com/a", "x.com", "Private", 0⟩] 2 = [] ∧
    get_ambiguous_classifications [⟨"https://x.com/a", "x.com", "Private", 3⟩] 2 = [] :=
  ⟨rfl, rfl, rfl, rfl⟩

set_option maxRecDepth 8000 in
/-- C6 (code behaviour when every score is invalid): on a 50-word text for
which all four textstat formulas return 35 (outside 0-30), every validated
score is None; line 72 of src/modules/readability.py stores None as
mean_readability, the log line then formats that None with .1f raising
TypeError, and the handler returns None for the whole call - no metrics
record with a null mean is produced, contrary to the claim. -/
theorem calculate_readability_allnull_returns_none :
    MIN_WORD_COUNT ≤ (pySplit wText50).length ∧
    calculate_readability wLib35 wText50 = none := by
  constructor
  · decide
  · decide

/-- C3: classify_source scores a (url, title, domain) input as the sum of
at most one +3 domain-tier contribution, at most one +2 URL-tier
contribution and at most one +1 title-tier contribution, so confidence is
at most 6; the label is Institutional exactly when confidence reaches
CONFIDENCE_THRESHOLD (3), otherwise Private; confidence 0 yields
Private. -/
theorem classify_source_spec (extractDomain : String → String)
    (url page_title domain : String) :
    (classify_source extractDomain url page_title domain).2 =
      (if domainTierMatch (pyLower (if domain = "" then extractDomain url else domain))
        then 3 else 0) +
      (if urlTierMatch (pyLower url) then 2 else 0) +
      (if titleTierMatch (pyLower page_title) then 1 else 0) ∧
    (classify_source extractDomain url page_title domain).2 ≤ 6 ∧
    ((classify_source extractDomain url page_title domain).1 = "Institutional" ↔
      CONFIDENCE_THRESHOLD ≤ (classify_source extractDomain url page_title domain).2) ∧
    ((classify_source extractDomain url page_title domain).2 = 0 →
      (classify_source extractDomain url page_title domain).1 = "Private") := by
  cases hd : domainTierMatch (pyLower (if domain = "" then extractDomain url else domain)) <;>
    cases hu : urlTierMatch (pyLower url) <;>
      cases ht : titleTierMatch (pyLower page_title) <;>
        simp [classify_source, hd, hu, ht, CONFIDENCE_THRESHOLD]

/-- Witness for classify_source_spec: the CDC page scores 4 (domain +3,
title +1) and is labelled Institutional; an unmatched page scores 0 and is
labelled Private. -/
theorem classify_source_spec_witness :
    (classify_source (fun _ => "") "https://cdc.gov/x" "CDC Guidance" "cdc.gov").2 = 4 ∧
    ((classify_source (fun _ => "") "https://cdc.gov/x" "CDC Guidance" "cdc.gov").1 =
        "Institutional" ↔
      CONFIDENCE_THRESHOLD ≤
        (classify_source (fun _ => "") "https://cdc.gov/x" "CDC Guidance" "cdc.gov").2) ∧
    (classify_source (fun _ => "") "https://a.org/x" "" "a.org").1 = "Private" :=
  ⟨by decide,
   (classify_source_spec (fun _ => "") "https://cdc.gov/x" "CDC Guidance" "cdc.gov").2.2.1,
   (classify_source_spec (fun _ => "") "https://a.org/x" "" "a.org").2.2.2 (by decide)⟩

/-- Helper: looking up a key that is not in the generating list of a
keyed filterMap yields none. -/
theorem lookup_filterMap_if_not_mem {β : Type} (cond : String → Prop)
    [DecidablePred cond] (val : String → β) :
    ∀ (l : List String) (m : String), m ∉ l →
      (l.filterMap (fun a => if cond a then some (a, val a) else none)).lookup m = none := by
  intro l
  induction l with
  | nil => intro m _; rfl
  | cons a t ih =>
    intro m hm
    have hma : (m == a) = false :=
      beq_eq_false_iff_ne.mpr (fun he => hm (he ▸ List.mem_cons_self a t))
    have hmt : m ∉ t := fun h => hm (List.mem_cons_of_mem _ h)
    by_cases hc : cond a <;>
      simp [List.filterMap_cons, hc, List.lookup, hma, ih m hmt]

/-- Helper: looking up a member key of a keyed filterMap over a
duplicate-free list gives exactly the conditional entry of that key. -/
theorem lookup_filterMap_if_mem {β : Type} (cond : String → Prop)
    [DecidablePred cond] (val : String → β) :
    ∀ (l : List String), l.Nodup → ∀ m ∈ l,
      (l.filterMap (fun a => if cond a then some (a, val a) else none)).lookup m =
        if cond m then some (val m) else none := by
  intro l
  induction l with
  | nil => intro _ m hm; cases hm
  | cons a t ih =>
    intro hnd m hm
    rcases List.mem_cons.mp hm with he | hmt
    · subst he
      have hnt : m ∉ t := (List.nodup_cons.mp hnd).1
      by_cases hc : cond m <;>
        simp [List.filterMap_cons, hc, List.lookup,
          lookup_filterMap_if_not_mem cond val t m hnt]
    · have hat : a ∉ t := (List.nodup_cons.mp hnd).1
      have hma : (m == a) = false :=
        beq_eq_false_iff_ne.mpr (fun he => hat (he ▸ hmt))
      have := ih (List.nodup_cons.mp hnd).2 m hmt
      by_cases hc : cond a <;>
        simp [List.filterMap_cons, hc, List.lookup, hma, this]

/-- C9: when the comparison for one metric fails (the selected test throws
and compare_groups returns its error value), the comparisons table records
that error entry under that metric only, and the entry of every other metric is
exactly its own independently computed comparison. -/
theorem perform_comparisons_error_isolated
    (shapiro : List ℚ → Option (ℚ × ℚ))
    (ttest mwu : List ℚ → List ℚ → Except String (ℚ × ℚ))
    (sqrtFn : ℚ → ℚ) (df : List Row) (m e : String)
    (hm : m ∈ metricsList)
    (h1 : 0 < (groupValues df "Institutional" m).length)
    (h2 : 0 < (groupValues df "Private" m).length)
    (herr : compare_groups shapiro ttest mwu sqrtFn
        (groupValues df "Institutional" m) (groupValues df "Private" m) = .error e) :
    (perform_comparisons shapiro ttest mwu sqrtFn df).lookup m =
      some (.error e) ∧
    (∀ m2, m2 ∈ metricsList → m2 ≠ m →
      (perform_comparisons shapiro ttest mwu sqrtFn df).lookup m2 =
        if 0 < (groupValues df "Institutional" m2).length ∧
            0 < (groupValues df "Private" m2).length then
          some (compare_groups shapiro ttest mwu sqrtFn
            (groupValues df "Institutional" m2) (groupValues df "Private" m2))
        else none) := by
  have hnd : metricsList.Nodup := by decide
  have key := lookup_filterMap_if_mem
    (fun metric => (groupValues df "Institutional" metric).length > 0 ∧
      (groupValues df "Private" metric).length > 0)
    (fun metric => compare_groups shapiro ttest mwu sqrtFn
      (groupValues df "Institutional" metric) (groupValues df "Private" metric))
    metricsList hnd
  constructor
  · have k1 := key m hm
    simp only at k1
    unfold perform_comparisons
    rw [k1, if_pos ⟨h1, h2⟩, herr]
  · intro m2 hm2 _
    have k2 := key m2 hm2
    simp only at k2
    unfold perform_comparisons
    rw [k2]

/-- Witness for perform_comparisons_error_isolated: on the six-row frame
the GFI comparison errors with the degenerate-input message while the SMOG
entry is its own computed comparison. -/
theorem perform_comparisons_error_isolated_witness :
    (perform_comparisons wShapiroFail wTtest wMwuErr idQ wDf).lookup "GFI" =
      some (.error "degenerate input") ∧
    (perform_comparisons wShapiroFail wTtest wMwuErr idQ wDf).lookup "SMOG" =
      (if 0 < (groupValues wDf "Institutional" "SMOG").length ∧
          0 < (groupValues wDf "Private" "SMOG").length then
        some (compare_groups wShapiroFail wTtest wMwuErr idQ
          (groupValues wDf "Institutional" "SMOG") (groupValues wDf "Private" "SMOG"))
      else none) := by
  have h := perform_comparisons_error_isolated wShapiroFail wTtest wMwuErr idQ wDf
    "GFI" "degenerate input" (by decide) (by decide) (by decide) (by rfl)
  exact ⟨h.1, h.2 "SMOG" (by decide) (by decide)⟩

/-- C7: the extraction cascade short-circuits over the stripped tree.  If
the article strategy yields passing text the extractor returns it and no
later strategy matters; when it fails, a passing main container is
returned; then the content-indicator strategy, then the joined body
paragraphs; when all four fail the result is the all-body-text fallback;
and with no body element at all (and no earlier success) the result is
none. -/
theorem extract_cascade_order (soup0 : List HNode) :
    (∀ a, findTagList "article" (stripList soup0) = some a →
      acceptText (get_text_sep a) = true →
      extract_main_content soup0 = some (get_text_sep a)) ∧
    (strategyArticle (stripList soup0) = none →
      ∀ m, findTagList "main" (stripList soup0) = some m →
      acceptText (get_text_sep m) = true →
      extract_main_content soup0 = some (get_text_sep m)) ∧
    (strategyArticle (stripList soup0) = none →
      strategyMain (stripList soup0) = none →
      ∀ t, strategyIndicators (stripList soup0) = some t →
      extract_main_content soup0 = some t) ∧
    (strategyArticle (stripList soup0) = none →
      strategyMain (stripList soup0) = none →
      strategyIndicators (stripList soup0) = none →
      ∀ t, strategyParagraphs (stripList soup0) = some t →
      extract_main_content soup0 = some t) ∧
    (strategyArticle (stripList soup0) = none →
      strategyMain (stripList soup0) = none →
      strategyIndicators (stripList soup0) = none →
      strategyParagraphs (stripList soup0) = none →
      extract_main_content soup0 = strategyBodyAll (stripList soup0)) ∧
    (findTagList "body" (stripList soup0) = none →
      strategyArticle (stripList soup0) = none →
      strategyMain (stripList soup0) = none →
      strategyIndicators (stripList soup0) = none →
      extract_main_content soup0 = none) := by
  refine ⟨?_, ?_, ?_, ?_, ?_, ?_⟩
  · intro a ha hacc
    have h1 : strategyArticle (stripList soup0) = some (get_text_sep a) := by
      simp [strategyArticle, ha, hacc]
    simp [extract_main_content, h1]
  · intro h1 m hm hacc
    have h2 : strategyMain (stripList soup0) = some (get_text_sep m) := by
      simp [strategyMain, hm, hacc]
    simp [extract_main_content, h1, h2]
  · intro h1 h2 t h3
    simp [extract_main_content, h1, h2, h3]
  · intro h1 h2 h3 t h4
    simp [extract_main_content, h1, h2, h3, h4]
  · intro h1 h2 h3 h4
    simp [extract_main_content, h1, h2, h3, h4]
  · intro hb h1 h2 h3
    have h4 : strategyParagraphs (stripList soup0) = none := by
      simp [strategyParagraphs, hb]
    have h5 : strategyBodyAll (stripList soup0) = none := by
      simp [strategyBodyAll, hb]
    simp [extract_main_content, h1, h2, h3, h4, h5]

set_option maxRecDepth 8000 in
/-- Witness for extract_cascade_order: on the witness document the passing
article wins and the extractor returns its text. -/
theorem extract_cascade_order_witness :
    extract_main_content wSoup = some (get_text_sep wArticle) :=
  (extract_cascade_order wSoup).1 wArticle rfl (by decide)

end MedRead
